import Mathlib

/-!
Verification of the AI assistant platform's game-orchestration core.

Each definition is a shallow embedding of a function of the repository:
  * `AICharacterManager` — `services/ai_character_manager.py`
  * `WerewolfGame` — `services/werewolf_game.py`
  * `DetectiveGame` — `services/detective_game.py`
  * `AIServiceModel` — `services/ai_service.py`
  * `GameAutomation` — `services/game_automation.py`

The database key-value bag (`get_game_state_value` / `set_game_state`) is
embedded as explicit record fields; keys holding `str(int)` values (or the
empty string, cleared state) are embedded as `Option Nat`, matching the
writers, which only ever store a decimal rendering of an `int` or `''`.
-/

namespace AICharacterManager

/-- One entry of a character's rolling memory log
(`AICharacter.add_memory` builds `{'timestamp', 'event', 'context'}`). -/
structure MemoryItem where
  timestamp : String
  event : String
  context : String
deriving DecidableEq, Repr

/-- `AICharacter.add_memory`: append one entry; when the log exceeds 50
entries keep only the last 50 (`self.memory = self.memory[-50:]`). -/
def addMemory (memory : List MemoryItem) (item : MemoryItem) : List MemoryItem :=
  let m := memory ++ [item]
  if m.length > 50 then m.drop (m.length - 50) else m

/-- A sequence of `add_memory` calls on one character, oldest first. -/
def addMemoryAll (memory : List MemoryItem) (items : List MemoryItem) : List MemoryItem :=
  items.foldl addMemory memory

/-- A concrete run of 60 `add_memory` calls with pairwise distinct events. -/
def sixtyEvents : List MemoryItem :=
  (List.range 60).map (fun i => { timestamp := "", event := toString i, context := "" })

end AICharacterManager

namespace WerewolfGame

/-- One entry of the `ai_players` JSON list
(`{'player_number': …, 'role': …, 'alive': …}`). -/
structure Player where
  playerNumber : Nat
  role : String
  alive : Bool
deriving DecidableEq, Repr

/-- The werewolf session's game-state bag (`utils/database.py` key-value rows),
restricted to the keys `services/werewolf_game.py` reads and writes.
`night_kill_target`, `witch_save_target` and `witch_poison_target` hold either
`''` (embedded `none`) or the decimal rendering of a player number
(embedded `some n`), which is all their writers ever store. -/
structure WState where
  aiPlayers : List Player
  nightKillTarget : Option Nat
  witchSaveTarget : Option Nat
  witchPoisonTarget : Option Nat
  playerAlive : Bool
  playerRole : String
  currentPhase : String
  winner : Option String
  playerVoteVal : Option Nat
  antidoteUsed : Bool
  poisonUsed : Bool
  messages : List String
  witchSeenKill : Option Nat
  witchOffered : List String
deriving DecidableEq, Repr

/-- `_process_night_results` (werewolf_game.py:613-646): build the deaths list
from the night's kill and poison targets, flip the `alive` flags of the listed
players, clear the three night keys, and return the deaths list. -/
def processNightResults (s : WState) : List Nat × WState :=
  let killDeaths : List Nat :=
    match s.nightKillTarget with
    | none => []
    | some k => if s.witchSaveTarget = some k then [] else [k]
  let deaths : List Nat :=
    killDeaths ++ (match s.witchPoisonTarget with
      | none => []
      | some p => [p])
  let players :=
    if deaths = [] then s.aiPlayers
    else s.aiPlayers.map (fun p =>
      if p.playerNumber ∈ deaths then { p with alive := false } else p)
  (deaths,
    { s with aiPlayers := players,
             nightKillTarget := none,
             witchSaveTarget := none,
             witchPoisonTarget := none })

/-- Living AI werewolves plus the human player when they hold the werewolf
role (`_check_game_over`, werewolf_game.py:1276-1292). -/
def aliveWerewolves (s : WState) : List Player :=
  let aliveAI := s.aiPlayers.filter (·.alive)
  let ww := aliveAI.filter (fun p => p.role == "werewolf")
  if s.playerAlive && (s.playerRole == "werewolf") then
    ww ++ [{ playerNumber := 1, role := s.playerRole, alive := true }]
  else ww

/-- Living AI non-werewolves plus the human player when they hold a
non-werewolf role (`_check_game_over`, werewolf_game.py:1276-1292). -/
def aliveGoodGuys (s : WState) : List Player :=
  let aliveAI := s.aiPlayers.filter (·.alive)
  let good := aliveAI.filter (fun p => p.role != "werewolf")
  if s.playerAlive && !(s.playerRole == "werewolf") then
    good ++ [{ playerNumber := 1, role := s.playerRole, alive := true }]
  else good

/-- The win decision of `_check_game_over` (werewolf_game.py:1294-1300):
villagers win on zero living werewolves, werewolves win when they are at
least as many as the living non-werewolves, otherwise no winner yet. -/
def gameWinner (s : WState) : Option String :=
  if (aliveWerewolves s).length = 0 then some "好人阵营"
  else if (aliveWerewolves s).length ≥ (aliveGoodGuys s).length then some "狼人阵营"
  else none

/-- `_check_game_over` (werewolf_game.py:1272-1321): on a winner, set the
phase to `game_over`, record the winner and append the judge's end message
(AI-generated text, embedded as an opaque placeholder), returning `true`;
otherwise return `false` with the state untouched. -/
def checkGameOver (s : WState) : Bool × WState :=
  match gameWinner s with
  | some w =>
      (true, { s with currentPhase := "game_over",
                      winner := some w,
                      messages := s.messages ++ ["game_end_announcement"] })
  | none => (false, s)

/-- The witch's option list (`_witch_action`, werewolf_game.py:486-491): the
antidote option is offered only when the antidote is unused and a kill target
exists; the poison option only when the poison is unused; doing nothing is
always offered. -/
def witchActions (s : WState) : List String :=
  (if !s.antidoteUsed && s.nightKillTarget.isSome then ["使用解药救人"] else []) ++
  (if !s.poisonUsed then ["使用毒药杀人"] else []) ++
  ["不使用任何药品"]

/-- `_witch_action` (werewolf_game.py:472-585). `wChoice` is the integer the
AI reply parses to, `poisonPick` the randomly chosen poison victim. The
fields `witchSeenKill` and `witchOffered` record the `night_kill_target`
value the function reads and the option list it builds. When no kill target
is set, `int(night_kill_target)` on the empty string raises `ValueError`,
swallowed by the outer handler: no drug is used. Transcript texts are
embedded as fixed labels. -/
def witchAction (wChoice : Int) (poisonPick : Option Nat) (s : WState) : WState :=
  let seen := s.nightKillTarget
  let actions := witchActions s
  let sCore :=
    if actions.length = 1 then s
    else
      match seen with
      | none => s
      | some _ =>
        let idx := wChoice - 1
        if 0 ≤ idx ∧ idx < (actions.length : Int) then
          let action := actions.getD idx.toNat "不使用任何药品"
          if action = "使用解药救人" ∧ !s.antidoteUsed then
            { s with witchSaveTarget := seen, antidoteUsed := true,
                     messages := s.messages ++ ["witch_save"] }
          else if action = "使用毒药杀人" ∧ !s.poisonUsed then
            match poisonPick with
            | some t =>
                { s with witchPoisonTarget := some t, poisonUsed := true,
                         messages := s.messages ++ ["witch_poison"] }
            | none => s
          else { s with messages := s.messages ++ ["witch_no_drug"] }
        else s
  { sCore with witchSeenKill := seen, witchOffered := actions }

/-- `_seer_check_action` (werewolf_game.py:375-470): appends the private
check-result message and character memory; it never touches the night
targets. The checked player choice does not affect the bag keys. -/
def seerCheckAction (s : WState) : WState :=
  { s with messages := s.messages ++ ["seer_check_result"] }

/-- `_execute_night_actions` (werewolf_game.py:274-302): werewolf kill, then
seer check, then witch decision, each run only when a living holder of the
role exists. `killChoice` is `_werewolf_kill_action`'s returned target.
Returns the updated state and the trace of executed sub-actions in program
order. The trailing `_start_day_phase` call is embedded separately
(`processNightResults` / `checkGameOver`). -/
def executeNightActions (killChoice : Option Nat) (wChoice : Int)
    (poisonPick : Option Nat) (s : WState) : WState × List String :=
  let alivePlayers := s.aiPlayers.filter (·.alive)
  let hasWerewolf := alivePlayers.any (fun p => p.role == "werewolf")
  let s1 :=
    if hasWerewolf then
      match killChoice with
      | some t => { s with nightKillTarget := some t }
      | none => s
    else s
  let t1 := if hasWerewolf then ["werewolf_kill"] else []
  let hasSeer := alivePlayers.any (fun p => p.role == "seer")
  let s2 := if hasSeer then seerCheckAction s1 else s1
  let t2 := if hasSeer then ["seer_check"] else []
  let hasWitch := alivePlayers.any (fun p => p.role == "witch")
  let s3 := if hasWitch then witchAction wChoice poisonPick s2 else s2
  let t3 := if hasWitch then ["witch_decide"] else []
  (s3, t1 ++ t2 ++ t3)

/-- `player_vote` (werewolf_game.py:1081-1107): outside `day_voting` the vote
is rejected with `False` before any write; otherwise record the vote, append
the player's message, then run AI voting and the vote count
(`_conduct_ai_voting` / `_process_voting_results`, passed as parameters since
they draw on the AI service and randomness). -/
def playerVote (aiVoting : WState → WState) (processResults : WState → WState)
    (s : WState) (targetNumber : Nat) : Bool × WState :=
  if s.currentPhase ≠ "day_voting" then (false, s)
  else
    let s1 := { s with playerVoteVal := some targetNumber,
                       messages := s.messages ++ ["player_vote_message"] }
    (true, processResults (aiVoting s1))

/-- An eight-player night (player 1 is the human villager). -/
def baseState : WState :=
  { aiPlayers := [⟨2, "villager", true⟩, ⟨3, "villager", true⟩,
                  ⟨4, "werewolf", true⟩, ⟨5, "werewolf", true⟩,
                  ⟨6, "seer", true⟩, ⟨7, "witch", true⟩, ⟨8, "villager", true⟩],
    nightKillTarget := none, witchSaveTarget := none, witchPoisonTarget := none,
    playerAlive := true, playerRole := "villager", currentPhase := "night",
    winner := none, playerVoteVal := none, antidoteUsed := false,
    poisonUsed := false, messages := [], witchSeenKill := none,
    witchOffered := [] }

/-- Night where the werewolves killed player 3 and the witch also poisoned
player 3; no antidote. -/
def doubleKillState : WState :=
  { baseState with nightKillTarget := some 3, witchPoisonTarget := some 3 }

/-- Night where the werewolves killed player 3 and the witch saved player 3. -/
def savedKillState : WState :=
  { baseState with nightKillTarget := some 3, witchSaveTarget := some 3 }

end WerewolfGame

namespace DetectiveGame

/-- First index at or after `i` where `sub` occurs in `s`
(Python `str.find`, shifted). -/
def findFrom : List Char → List Char → Nat → Option Nat
  | [], sub, i => if sub.isEmpty then some i else none
  | c :: rest, sub, i =>
    if sub.isPrefixOf (c :: rest) then some i else findFrom rest sub (i + 1)

/-- Last index where `sub` occurs in `s` (Python `str.rfind`). -/
def rfindSub (s sub : List Char) : Option Nat :=
  ((List.range (s.length + 1)).filter (fun i => sub.isPrefixOf (s.drop i))).getLast?

/-- `find` result shifted past the marker (`idx + len(marker)`). -/
def markerStart (cs marker : List Char) : Option Nat :=
  match findFrom cs marker 0 with
  | some i => some (i + marker.length)
  | none => none

/-- The JSON-extraction steps of `_generate_case`
(detective_game.py:177-204): strip, look for the first code-fence marker in
the fixed order, else the first `{`; then the last ```` ``` ```` fence if it
lies past the start, else past the last `}`; slice and strip. `none` embeds
the `ValueError` paths. -/
def extractJSON (response : String) : Option String :=
  let cs := response.trim.toList
  let fromMarkers :=
    markerStart cs ("```json\n".toList) <|> markerStart cs ("```json".toList) <|>
    markerStart cs ("```\n".toList) <|> markerStart cs ("```".toList)
  match fromMarkers <|> findFrom cs (['{']) 0 with
  | none => none
  | some jsonStart =>
    let fenceEnd :=
      match rfindSub cs ("```".toList) with
      | some e => if e ≤ jsonStart then none else some e
      | none => none
    let jsonEnd? :=
      match fenceEnd with
      | some e => some e
      | none =>
        let e := (match rfindSub cs (['}']) with
          | some e2 => e2 + 1
          | none => 0)
        if e ≤ jsonStart then none else some e
    match jsonEnd? with
    | none => none
    | some jsonEnd =>
      some (String.mk ((cs.drop jsonStart).take (jsonEnd - jsonStart))).trim

/-- `受害者信息` of the case payload. -/
structure Victim where
  name : String
  age : String
  job : String
  info : String
deriving DecidableEq, Repr

/-- One entry of `嫌疑人信息`. -/
structure Suspect where
  name : String
  age : Nat
  job : String
  relationship : String
  motive : String
  alibi : String
  personality : String
deriving DecidableEq, Repr

/-- One entry of `证据线索` (`类型` / `内容`). -/
structure Clue where
  clueType : String
  content : String
deriving DecidableEq, Repr

/-- The `真相` record (`真正凶手` / `作案动机` / `作案过程`). -/
structure CaseTruth where
  culprit : String
  motive : String
  process : String
deriving DecidableEq, Repr

/-- The structured case payload of `_generate_case` / `_get_fallback_case`
(`案件信息` metadata, suspects, clues, truth). -/
structure Scenario where
  title : String
  summary : String
  location : String
  time : String
  victim : Victim
  suspects : List Suspect
  clues : List Clue
  truth : CaseTruth
deriving DecidableEq, Repr

/-- `_get_fallback_case` (detective_game.py:227-298): the hard-coded canned
scenario, returned by `_generate_simple_case` on every generation failure. -/
def getFallbackCase : Scenario :=
  { title := "豪宅谋杀案",
    summary := "商业大亨李总在家中被发现死亡，死因为中毒。现场发现多个可疑线索，多名亲近人员都有作案动机和机会。",
    location := "市郊豪宅书房",
    time := "昨晚11点左右",
    victim := { name := "李志强", age := "52岁", job := "房地产公司董事长",
                info := "生前身体健康，无疾病史" },
    suspects :=
      [{ name := "李夫人", age := 45, job := "家庭主妇", relationship := "妻子",
         motive := "巨额保险金和遗产继承", alibi := "声称在卧室看电视",
         personality := "表面温和，内心城府很深" },
       { name := "张助理", age := 28, job := "私人助理", relationship := "工作伙伴",
         motive := "内幕交易被发现，担心被起诉", alibi := "声称在公司加班",
         personality := "紧张焦虑，说话闪烁其词" },
       { name := "王律师", age := 55, job := "律师", relationship := "法律顾问",
         motive := "遗嘱修改纠纷，经济损失", alibi := "声称在律师楼加班",
         personality := "老谋深算，措辞严谨" }],
    clues :=
      [{ clueType := "物理证据", content := "在书房发现一只红酒杯，杯中残留毒物" },
       { clueType := "文件证据", content := "桌上发现一份未签名的遗嘱草稿，内容有重大变更" },
       { clueType := "电子证据", content := "死者手机显示当晚有多通电话记录" },
       { clueType := "财务证据", content := "发现一份高额人寿保险合同，受益人为李夫人" },
       { clueType := "银行记录", content := "近期有大额现金转账记录，目的地不明" }],
    truth := { culprit := "李夫人", motive := "为了获得巨额保险金和遗产继承权",
               process := "李夫人趁李总在书房工作时，送去一杯红酒。红酒中事先投入了无色无味的剧毒物质，李总饮用后中毒身亡。" } }

/-- The adapter reply as `_generate_case` consumes it
(`api_response.get('success')` and `api_response['content']`). -/
structure ChatResponse where
  success : Bool
  content : String
deriving DecidableEq, Repr

/-- `_generate_case` (detective_game.py:159-218): on adapter failure, empty
text, failed JSON extraction or failed parsing, fall back to the canned case
(`_generate_simple_case` → `_get_fallback_case`); otherwise return the
parsed payload. `parse` stands for `json.loads` into the case schema. -/
def generateCase (parse : String → Option Scenario) (resp : ChatResponse) : Scenario :=
  if !resp.success then getFallbackCase
  else if resp.content.trim.isEmpty then getFallbackCase
  else
    match extractJSON resp.content with
    | none => getFallbackCase
    | some j =>
      match parse j with
      | none => getFallbackCase
      | some c => c

/-- The detective game's stored truth record
(`json.loads(truth_str)` with keys `killer` / `motive` / `method`). -/
structure DTruth where
  killer : String
  motive : String
  method : String
deriving DecidableEq, Repr

/-- The result dictionary of `submit_conclusion` (detective_game.py:850-858),
without the AI evaluation text. -/
structure ConclusionResult where
  success : Bool
  correct : Bool
  score : Int
  accused : String
  actualKiller : String
deriving DecidableEq, Repr

/-- `submit_conclusion` (detective_game.py:785-858) for a session with a
stored truth record: exact string comparison of the accused suspect against
`truth['killer']`, scored with the correctness, efficiency and clue bonuses.
Message appends, score persistence and the AI evaluation text are external
side effects that do not feed the returned flags. -/
def submitConclusion (truth : DTruth) (suspect : String)
    (interrogationCount discoveredClues : Nat) : ConclusionResult :=
  let correctKiller := truth.killer
  let isCorrect := suspect == correctKiller
  let baseScore : Int := if isCorrect then 100 else 0
  let efficiencyBonus : Int := max 0 (50 - (interrogationCount : Int) * 5)
  let clueBonus : Int := (discoveredClues : Int) * 10
  { success := true, correct := isCorrect,
    score := baseScore + efficiencyBonus + clueBonus,
    accused := suspect, actualKiller := correctKiller }

/-- Modelled from the spec's words (§4.4 with the §4.3 fuzzy fallback), for
comparison against `submitConclusion`: case-insensitive equality with
substring containment in either direction as fallback. -/
def specAccusationMatch (accused culprit : String) : Bool :=
  let a := accused.toList.map Char.toLower
  let c := culprit.toList.map Char.toLower
  a == c || (findFrom c a 0).isSome || (findFrom a c 0).isSome

end DetectiveGame

namespace AIServiceModel

/-- The HTTP reply body as `_sync_completion` consumes it: `content` is
`result['choices'][0]['message']['content']` when that path exists, `usage`
the (opaque) usage object. -/
structure HttpBody where
  content : Option String
  usage : List (String × Nat)
deriving DecidableEq, Repr

/-- Outcome of `self.session.post(...)`: either a raised exception
(network error, timeout) or a response with a status code and body. -/
inductive HttpOutcome where
  | exc (msg : String)
  | resp (status : Nat) (body : HttpBody)
deriving DecidableEq, Repr

/-- The dictionary `chat_completion` returns: the success/failure shapes of
ai_service.py:80-84 and 94-107. -/
structure ChatResult where
  success : Bool
  content : String
  error : Option String
  usage : Option (List (String × Nat))
deriving DecidableEq, Repr

/-- `OpenRouterService._sync_completion` (ai_service.py:86-107): status 200
yields the success dictionary; indexing a malformed 200 body raises (the
`Except.error` case); any other status yields the failure dictionary. -/
def syncCompletion (status : Nat) (body : HttpBody) : Except String ChatResult :=
  if status = 200 then
    match body.content with
    | some c => .ok { success := true, content := c, error := none, usage := some body.usage }
    | none => .error "malformed response body"
  else
    .ok { success := false, content := "",
          error := some ("API调用失败: " ++ toString status), usage := none }

/-- `OpenRouterService.chat_completion` (ai_service.py:61-84), buffered mode:
wraps `_sync_completion` in a catch-all that converts any exception into the
failure dictionary; it never re-raises. -/
def chatCompletion (outcome : HttpOutcome) : ChatResult :=
  match outcome with
  | .exc m => { success := false, content := "", error := some m, usage := none }
  | .resp status body =>
    match syncCompletion status body with
    | .ok r => r
    | .error m => { success := false, content := "", error := some m, usage := none }

end AIServiceModel

namespace GameAutomation

/-- The scheduler's registries (`self.active_games`, `self.game_timers`) plus
a log of every thread creation, in order. -/
structure AutomationState where
  activeGames : List String
  gameTimers : List String
  spawned : List String
deriving DecidableEq, Repr

/-- `start_game_automation` (game_automation.py:27-39): a session already in
`active_games` is left alone (no second thread); otherwise a loop thread is
created and the session registered. -/
def startGameAutomation (st : AutomationState) (sid : String) : AutomationState :=
  if sid ∈ st.activeGames then st
  else { st with activeGames := st.activeGames ++ [sid],
                 spawned := st.spawned ++ [sid] }

/-- `stop_game_automation` (game_automation.py:41-46): drop the session from
both registries when present. -/
def stopGameAutomation (st : AutomationState) (sid : String) : AutomationState :=
  { st with activeGames := st.activeGames.erase sid,
            gameTimers := st.gameTimers.erase sid }

/-- The `finally` clause of `_run_game_loop` (game_automation.py:48-60),
reached on every exit path — normal completion or a caught exception:
it always calls `stop_game_automation`. The loop body itself never writes
the registries. -/
def runGameLoopExit (st : AutomationState) (sid : String) : AutomationState :=
  stopGameAutomation st sid

end GameAutomation

/-! ## Theorems -/

namespace AICharacterManager

theorem addMemory_concat (memory : List MemoryItem) (item : MemoryItem)
    (h : memory.length ≤ 50) :
    addMemory memory item =
      (memory ++ [item]).drop ((memory ++ [item]).length - 50) := by
  show (if (memory ++ [item]).length > 50 then
      (memory ++ [item]).drop ((memory ++ [item]).length - 50)
    else (memory ++ [item])) = _
  by_cases h51 : (memory ++ [item]).length > 50
  · rw [if_pos h51]
  · rw [if_neg h51]
    have h0 : (memory ++ [item]).length - 50 = 0 := by
      simp only [List.length_append, List.length_singleton] at h51 ⊢
      omega
    rw [h0, List.drop_zero]

theorem addMemoryAll_nil_eq_drop (items : List MemoryItem) :
    addMemoryAll [] items = items.drop (items.length - 50) := by
  induction items using List.reverseRecOn with
  | nil => simp [addMemoryAll]
  | append_singleton xs x ih =>
    have hfold : addMemoryAll [] (xs ++ [x]) = addMemory (addMemoryAll [] xs) x := by
      simp [addMemoryAll]
    rw [hfold, ih]
    have hlen : (xs.drop (xs.length - 50)).length ≤ 50 := by
      simp [List.length_drop]; omega
    rw [addMemory_concat _ _ hlen]
    by_cases hxs : xs.length ≤ 50
    · have h0 : xs.length - 50 = 0 := by omega
      simp only [h0, List.drop_zero]
    · have hda : xs.drop (xs.length - 50) ++ [x] = (xs ++ [x]).drop (xs.length - 50) := by
        rw [List.drop_append_of_le_length (by omega)]
      rw [hda, List.drop_drop]
      congr 1
      simp
      omega

/-- C2: starting from a fresh character, any sequence of `add_memory` calls
leaves at most 50 stored entries; the stored log is exactly the most recent
entries in append order (FIFO eviction); after at least 50 appends the log
holds exactly 50 entries; and after 60 appends the first stored entry is the
11th appended one. -/
theorem add_memory_cap_fifo (items : List MemoryItem) :
    (addMemoryAll [] items).length ≤ 50 ∧
    addMemoryAll [] items = items.drop (items.length - 50) ∧
    (50 ≤ items.length → (addMemoryAll [] items).length = 50) ∧
    (items.length = 60 → (addMemoryAll [] items).head? = items[10]?) := by
  have hd := addMemoryAll_nil_eq_drop items
  refine ⟨?_, hd, ?_, ?_⟩
  · rw [hd]; simp only [List.length_drop]; omega
  · intro h; rw [hd]; simp only [List.length_drop]; omega
  · intro h
    rw [hd, h]
    norm_num

/-- Witness for C2 at a run of 60 distinct events. -/
theorem add_memory_cap_fifo_witness :
    (addMemoryAll [] sixtyEvents).length = 50 ∧
    (addMemoryAll [] sixtyEvents).head? = sixtyEvents[10]? :=
  ⟨(add_memory_cap_fifo sixtyEvents).2.2.1 (by decide),
   (add_memory_cap_fifo sixtyEvents).2.2.2 (by decide)⟩

end AICharacterManager

namespace WerewolfGame

/-- C1 counterexample: with werewolf kill target 3 and witch poison target 3
in the same night (no antidote), `_process_night_results` returns the deaths
list `[3, 3]` — player 3 is reported dead twice and the death count is 2,
not 1 as claimed. -/
theorem double_kill_two_deaths_counterexample :
    (processNightResults doubleKillState).1 = [3, 3] ∧
    (processNightResults doubleKillState).1.length ≠ 1 := by
  constructor
  · rfl
  · decide

/-- C1 (amended): when the werewolf kill target and the witch poison target
both name player `t` (and the antidote was not used on `t`), night resolution
returns the deaths list `[t, t]` of length 2 — the victim is reported twice —
while the roster update flips the victim's alive flag to false in a single
map pass (each player record is rewritten at most once). -/
theorem double_kill_amended (s : WState) (t : Nat)
    (hk : s.nightKillTarget = some t) (hs : s.witchSaveTarget ≠ some t)
    (hp : s.witchPoisonTarget = some t) :
    (processNightResults s).1 = [t, t] ∧
    (processNightResults s).1.length = 2 ∧
    (processNightResults s).2.aiPlayers =
      s.aiPlayers.map (fun p =>
        if p.playerNumber = t then { p with alive := false } else p) := by
  unfold processNightResults
  simp only [hk, hp, if_neg hs]
  refine ⟨rfl, rfl, ?_⟩
  have hne : ¬([t] ++ [t] = ([] : List Nat)) := by simp
  simp only [if_neg hne]
  apply List.map_congr_left
  intro p _
  simp [List.mem_cons]

/-- Witness for the amended C1 at the concrete double-kill night. -/
theorem double_kill_amended_witness :
    (processNightResults doubleKillState).1 = [3, 3] ∧
    (processNightResults doubleKillState).1.length = 2 ∧
    (processNightResults doubleKillState).2.aiPlayers =
      doubleKillState.aiPlayers.map (fun p =>
        if p.playerNumber = 3 then { p with alive := false } else p) :=
  double_kill_amended doubleKillState 3 rfl (by decide) rfl

/-- C4: when the witch's antidote target equals the night's kill target and
no poison was used, night resolution reports no deaths and leaves the roster
unchanged — in particular every player alive before the night, the saved
victim included, is still alive. -/
theorem antidote_cancels_kill (s : WState) (t : Nat)
    (hk : s.nightKillTarget = some t) (hs : s.witchSaveTarget = some t)
    (hp : s.witchPoisonTarget = none) :
    (processNightResults s).1 = [] ∧
    (processNightResults s).2.aiPlayers = s.aiPlayers := by
  unfold processNightResults
  simp [hk, hs, hp]

/-- Witness for C4 at the concrete saved-kill night: no deaths, the roster is
untouched and player 3 is still alive. -/
theorem antidote_cancels_kill_witness :
    ((processNightResults savedKillState).1 = [] ∧
     (processNightResults savedKillState).2.aiPlayers = savedKillState.aiPlayers) ∧
    (processNightResults savedKillState).2.aiPlayers.any
      (fun p => p.playerNumber == 3 && p.alive) = true :=
  ⟨antidote_cancels_kill savedKillState 3 rfl rfl rfl, by decide⟩

theorem checkGameOver_fst (s : WState) :
    (checkGameOver s).1 = (gameWinner s).isSome := by
  unfold checkGameOver
  cases h : gameWinner s <;> simp [h]

theorem gameWinner_stable (s : WState) :
    gameWinner (checkGameOver s).2 = gameWinner s := by
  unfold checkGameOver
  cases h : gameWinner s
  · simpa using h
  · simpa using h

/-- C3: the win check declares the villagers winners exactly when no
werewolf is alive, the werewolves winners exactly when at least one werewolf
is alive and the living werewolves are at least as many as the living
non-werewolves, and no winner otherwise; re-running the check on the state
it produced (alive flags unchanged) yields the same verdict. -/
theorem check_game_over_spec (s : WState) :
    (gameWinner s = some "好人阵营" ↔ (aliveWerewolves s).length = 0) ∧
    (gameWinner s = some "狼人阵营" ↔
      (aliveWerewolves s).length ≠ 0 ∧
      (aliveGoodGuys s).length ≤ (aliveWerewolves s).length) ∧
    (gameWinner s = none ↔
      (aliveWerewolves s).length ≠ 0 ∧
      (aliveWerewolves s).length < (aliveGoodGuys s).length) ∧
    (checkGameOver s).1 = (gameWinner s).isSome ∧
    gameWinner (checkGameOver s).2 = gameWinner s ∧
    (checkGameOver (checkGameOver s).2).1 = (checkGameOver s).1 := by
  have hne : ("狼人阵营" : String) ≠ "好人阵营" := by decide
  refine ⟨?_, ?_, ?_, checkGameOver_fst s, gameWinner_stable s, ?_⟩
  · unfold gameWinner
    split_ifs with h1 h2 <;> simp_all
  · unfold gameWinner
    split_ifs with h1 h2 <;> simp_all
  · unfold gameWinner
    split_ifs with h1 h2 <;> simp_all
  · rw [checkGameOver_fst, checkGameOver_fst, gameWinner_stable]

theorem witchAction_reads (w : Int) (pp : Option Nat) (st : WState) :
    (witchAction w pp st).witchSeenKill = st.nightKillTarget ∧
    (witchAction w pp st).witchOffered = witchActions st :=
  ⟨rfl, rfl⟩

theorem mem_save_witchActions (st : WState) (hk : st.nightKillTarget.isSome = true) :
    ("使用解药救人" ∈ witchActions st ↔ st.antidoteUsed = false) := by
  unfold witchActions
  cases ha : st.antidoteUsed <;> simp [ha, hk]

/-- C7: within one night, the werewolf-kill, seer-check and witch-decide
sub-actions run in that fixed program order (the executed trace is a
subsequence of the canonical order), and the witch's decision reads exactly
the `night_kill_target` value the preceding werewolf step wrote; the save
option is offered precisely when a kill target exists and the antidote is
unused. -/
theorem night_actions_order (s : WState) (killChoice : Option Nat)
    (wChoice : Int) (poisonPick : Option Nat) (t : Nat)
    (hW : (s.aiPlayers.filter (·.alive)).any (fun p => p.role == "werewolf") = true)
    (hWi : (s.aiPlayers.filter (·.alive)).any (fun p => p.role == "witch") = true)
    (hk : killChoice = some t) :
    (executeNightActions killChoice wChoice poisonPick s).1.witchSeenKill = some t ∧
    List.Sublist (executeNightActions killChoice wChoice poisonPick s).2
      ["werewolf_kill", "seer_check", "witch_decide"] ∧
    "werewolf_kill" ∈ (executeNightActions killChoice wChoice poisonPick s).2 ∧
    "witch_decide" ∈ (executeNightActions killChoice wChoice poisonPick s).2 ∧
    ("使用解药救人" ∈ (executeNightActions killChoice wChoice poisonPick s).1.witchOffered
      ↔ s.antidoteUsed = false) := by
  subst hk
  unfold executeNightActions
  cases hS : (s.aiPlayers.filter (·.alive)).any (fun p => p.role == "seer") <;>
    simp only [hW, hWi, hS, if_true, Bool.false_eq_true, if_false] <;>
    exact ⟨rfl, by decide, by decide, by decide, mem_save_witchActions _ rfl⟩

/-- Witness for C7 at the eight-player night with kill target 3. -/
theorem night_actions_order_witness :
    (executeNightActions (some 3) 1 none baseState).1.witchSeenKill = some 3 ∧
    List.Sublist (executeNightActions (some 3) 1 none baseState).2
      ["werewolf_kill", "seer_check", "witch_decide"] ∧
    "werewolf_kill" ∈ (executeNightActions (some 3) 1 none baseState).2 ∧
    "witch_decide" ∈ (executeNightActions (some 3) 1 none baseState).2 ∧
    ("使用解药救人" ∈ (executeNightActions (some 3) 1 none baseState).1.witchOffered
      ↔ baseState.antidoteUsed = false) :=
  night_actions_order baseState (some 3) 1 none 3 (by decide) (by decide) rfl

/-- C8: a vote submitted while the session is in any phase other than
`day_voting` is rejected — `player_vote` returns `false` and the state is
exactly the input state: no recorded vote, no appended message, no
elimination, and nothing queued — for every AI-voting and result-processing
continuation. -/
theorem player_vote_wrong_phase (aiVoting processResults : WState → WState)
    (s : WState) (targetNumber : Nat) (h : s.currentPhase ≠ "day_voting") :
    playerVote aiVoting processResults s targetNumber = (false, s) := by
  unfold playerVote
  rw [if_pos h]

/-- Witness for C8: a vote submitted during the night phase is rejected with
the state untouched. -/
theorem player_vote_wrong_phase_witness :
    playerVote id id baseState 3 = (false, baseState) :=
  player_vote_wrong_phase id id baseState 3 (by decide)

end WerewolfGame

namespace DetectiveGame

/-- C5: whenever the adapter reply is unusable — `success:false`, empty
(whitespace-only) text, failed JSON extraction after stripping the code
fences and locating the delimiters, or failed structured parsing — case
generation returns the hard-coded canned scenario, which has a non-empty
title, three suspects, five clues, and a truth culprit naming one of its own
suspects; no partially-filled scenario is ever produced on these paths. -/
theorem generate_case_fallback (parse : String → Option Scenario) (resp : ChatResponse)
    (h : resp.success = false ∨ resp.content.trim.isEmpty = true ∨
         extractJSON resp.content = none ∨
         (∃ j, extractJSON resp.content = some j ∧ parse j = none)) :
    generateCase parse resp = getFallbackCase ∧
    getFallbackCase.title ≠ "" ∧
    1 ≤ getFallbackCase.suspects.length ∧
    1 ≤ getFallbackCase.clues.length ∧
    getFallbackCase.truth.culprit ∈ getFallbackCase.suspects.map (fun sus => sus.name) := by
  refine ⟨?_, by decide, by decide, by decide, by decide⟩
  unfold generateCase
  cases hsucc : resp.success
  · simp [hsucc]
  · simp only [hsucc, Bool.not_true, Bool.false_eq_true, if_false]
    rcases h with h | h | h | ⟨j, hj, hp⟩
    · exact absurd hsucc (by simp [h])
    · simp [h]
    · by_cases he : resp.content.trim.isEmpty
      · simp [he]
      · simp [he, h]
    · by_cases he : resp.content.trim.isEmpty
      · simp [he]
      · simp [he, hj, hp]

/-- Witness for C5 at a forced adapter failure (`success:false`). -/
theorem generate_case_fallback_witness :
    generateCase (fun _ => none) { success := false, content := "" } = getFallbackCase ∧
    getFallbackCase.title ≠ "" ∧
    1 ≤ getFallbackCase.suspects.length ∧
    1 ≤ getFallbackCase.clues.length ∧
    getFallbackCase.truth.culprit ∈ getFallbackCase.suspects.map (fun sus => sus.name) :=
  generate_case_fallback (fun _ => none) { success := false, content := "" } (Or.inl rfl)

/-- C6 counterexample: the detective game's conclusion check is exact and
case-sensitive, not the spec's case-insensitive comparison with fuzzy
containment fallback: with stored culprit `Alice`, the accusation `ALICE`
matches under the spec's comparison yet `submit_conclusion` reports
`correct: false`. -/
theorem submit_conclusion_case_counterexample :
    specAccusationMatch "ALICE" "Alice" = true ∧
    (submitConclusion ⟨"Alice", "", ""⟩ "ALICE" 0 0).correct = false := by
  constructor
  · decide
  · rfl

/-- C6 (amended): `submit_conclusion` reports `correct: true` exactly when
the accused name equals `Truth.killer` under exact, case-sensitive string
equality (no case folding, no containment fallback); the echoed accused name
is the submitted one and the reported actual killer always equals the stored
culprit. -/
theorem submit_conclusion_exact (truth : DTruth) (suspect : String) (ic dc : Nat) :
    ((submitConclusion truth suspect ic dc).correct = true ↔ suspect = truth.killer) ∧
    (submitConclusion truth suspect ic dc).accused = suspect ∧
    (submitConclusion truth suspect ic dc).actualKiller = truth.killer := by
  refine ⟨?_, rfl, rfl⟩
  show (suspect == truth.killer) = true ↔ suspect = truth.killer
  exact beq_iff_eq

end DetectiveGame

namespace AIServiceModel

/-- C9: the buffered completion call is a total function of the underlying
HTTP outcome — every raised exception and every non-200 response is absorbed
into a result with `success = false`, empty content and a populated error,
and `success = true` holds exactly for a 200 response with a well-formed
body, whose content and usage are passed through. -/
theorem chat_completion_shape (o : HttpOutcome) :
    ((chatCompletion o).success = true ∨
      ((chatCompletion o).success = false ∧ (chatCompletion o).content = "" ∧
       (chatCompletion o).error.isSome = true)) ∧
    ((chatCompletion o).success = true ↔
      ∃ body c, o = HttpOutcome.resp 200 body ∧ body.content = some c ∧
        (chatCompletion o).content = c ∧ (chatCompletion o).usage = some body.usage) := by
  cases o with
  | exc m =>
    refine ⟨Or.inr ⟨rfl, rfl, rfl⟩, ?_⟩
    constructor
    · intro hcontra
      simp [chatCompletion] at hcontra
    · rintro ⟨body, c, hcontra, -⟩
      exact absurd hcontra (by simp)
  | resp status body =>
    unfold chatCompletion syncCompletion
    by_cases hst : status = 200
    · subst hst
      cases hc : body.content with
      | none =>
        refine ⟨Or.inr (by simp [hc]), ?_⟩
        constructor
        · intro hcontra
          simp [hc] at hcontra
        · rintro ⟨body2, c, heq, hc2, -⟩
          injection heq with hstat hbb
          rw [← hbb, hc] at hc2
          cases hc2
      | some c =>
        refine ⟨Or.inl (by simp [hc]), ?_⟩
        constructor
        · intro _
          exact ⟨body, c, rfl, hc, by simp [hc], by simp [hc]⟩
        · intro _
          simp [hc]
    · refine ⟨Or.inr (by simp [hst]), ?_⟩
      constructor
      · intro hcontra
        simp [hst] at hcontra
      · rintro ⟨body2, c, heq, -⟩
        injection heq with h200 _
        exact absurd h200 hst

end AIServiceModel

namespace GameAutomation

/-- C10: with a duplicate-free registry (a Python dict's keys always are),
starting automation for a session already registered is a no-op — no second
thread is spawned; the loop's exit path always deregisters the session, the
registry stays duplicate-free, and a subsequent start after the exit
registers the session again with exactly one new thread. -/
theorem automation_registry_unique (st : AutomationState) (sid : String)
    (hnd : st.activeGames.Nodup) :
    (sid ∈ st.activeGames → startGameAutomation st sid = st) ∧
    (startGameAutomation st sid).activeGames.Nodup ∧
    sid ∉ (runGameLoopExit st sid).activeGames ∧
    (runGameLoopExit st sid).activeGames.Nodup ∧
    (startGameAutomation (runGameLoopExit st sid) sid).activeGames =
      (runGameLoopExit st sid).activeGames ++ [sid] ∧
    (startGameAutomation (runGameLoopExit st sid) sid).spawned =
      st.spawned ++ [sid] := by
  have hnotmem : sid ∉ (runGameLoopExit st sid).activeGames := by
    unfold runGameLoopExit stopGameAutomation
    intro hmem
    rcases (hnd.mem_erase_iff).mp hmem with ⟨hne, -⟩
    exact hne rfl
  refine ⟨?_, ?_, hnotmem, hnd.erase sid, ?_, ?_⟩
  · intro hmem
    unfold startGameAutomation
    rw [if_pos hmem]
  · unfold startGameAutomation
    by_cases hmem : sid ∈ st.activeGames
    · rw [if_pos hmem]
      exact hnd
    · rw [if_neg hmem]
      simp [List.nodup_append, hnd, hmem]
  · unfold startGameAutomation
    rw [if_neg hnotmem]
  · unfold startGameAutomation
    rw [if_neg hnotmem]
    unfold runGameLoopExit stopGameAutomation
    rfl

/-- Witness for C10 on a concrete two-session registry. -/
theorem automation_registry_unique_witness :
    ("s1" ∈ (AutomationState.mk ["s1", "s2"] ["s1"] ["s1", "s2"]).activeGames →
      startGameAutomation (AutomationState.mk ["s1", "s2"] ["s1"] ["s1", "s2"]) "s1" =
        AutomationState.mk ["s1", "s2"] ["s1"] ["s1", "s2"]) ∧
    (startGameAutomation (AutomationState.mk ["s1", "s2"] ["s1"] ["s1", "s2"]) "s1").activeGames.Nodup ∧
    "s1" ∉ (runGameLoopExit (AutomationState.mk ["s1", "s2"] ["s1"] ["s1", "s2"]) "s1").activeGames ∧
    (runGameLoopExit (AutomationState.mk ["s1", "s2"] ["s1"] ["s1", "s2"]) "s1").activeGames.Nodup ∧
    (startGameAutomation (runGameLoopExit (AutomationState.mk ["s1", "s2"] ["s1"] ["s1", "s2"]) "s1") "s1").activeGames =
      (runGameLoopExit (AutomationState.mk ["s1", "s2"] ["s1"] ["s1", "s2"]) "s1").activeGames ++ ["s1"] ∧
    (startGameAutomation (runGameLoopExit (AutomationState.mk ["s1", "s2"] ["s1"] ["s1", "s2"]) "s1") "s1").spawned =
      (AutomationState.mk ["s1", "s2"] ["s1"] ["s1", "s2"]).spawned ++ ["s1"] :=
  automation_registry_unique (AutomationState.mk ["s1", "s2"] ["s1"] ["s1", "s2"]) "s1" (by decide)

end GameAutomation
